import Mathlib

set_option linter.unusedVariables false

/-!
Verification development for the TravelSmart travel-planning application.

The Python source is shallowly embedded: pure computations become Lean
functions, dates become integers (day ordinals), Python dicts become
association lists, and fallible remote calls become `Except` outcomes
passed in explicitly (`Except.error` models a raised exception,
`Except.ok` a normal return).
-/

namespace TravelSmart

/-- A Python value, as far as the verified code inspects one: enough
structure to carry strings, numbers, lists, dicts, booleans and `None`,
with Python truthiness. -/
inductive PyVal where
  | str (s : String)
  | int (n : Int)
  | list (xs : List PyVal)
  | dict (xs : List (String × PyVal))
  | bool (b : Bool)
  | none
deriving Inhabited

/-- Python truthiness of a value: empty collections, empty strings,
zero, `False` and `None` are falsy; everything else is truthy. -/
def PyVal.truthy : PyVal → Bool
  | .str s => !(s == "")
  | .int n => !(n == 0)
  | .list xs => !xs.isEmpty
  | .dict xs => !xs.isEmpty
  | .bool b => b
  | .none => false

/-- Whitespace characters removed by Python `str.strip()`. -/
def isPySpace (c : Char) : Bool :=
  c == ' ' || c == '\t' || c == '\n' || c == '\r' || c == '\x0b' || c == '\x0c'

/-- Python `str.strip()`: drop leading and trailing whitespace. -/
def pyStrip (s : String) : String :=
  ⟨((s.data.dropWhile isPySpace).reverse.dropWhile isPySpace).reverse⟩

/-- ASCII lower-casing of a character (the keyword matching in the source
only involves ASCII text). -/
def lowerChar (c : Char) : Char :=
  if 65 ≤ c.toNat ∧ c.toNat ≤ 90 then Char.ofNat (c.toNat + 32) else c

/-- Python `str.lower()` restricted to ASCII case mapping. -/
def pyLower (s : String) : String :=
  ⟨s.data.map lowerChar⟩

/-- Python substring containment `pat in s`, on character lists. -/
def listContainsSub (pat : List Char) : List Char → Bool
  | [] => pat.isEmpty
  | c :: rest => pat.isPrefixOf (c :: rest) || listContainsSub pat rest

/-- Python substring containment `pat in s` on strings. -/
def containsSub (s pat : String) : Bool :=
  listContainsSub pat.data s.data

/-- Helper for `pySplitNl`: split a character list at newlines, `cur`
holding the characters of the current line in reverse. -/
def splitNlAux : List Char → List Char → List String
  | [], cur => [⟨cur.reverse⟩]
  | c :: rest, cur =>
    if c == '\n' then ⟨cur.reverse⟩ :: splitNlAux rest []
    else splitNlAux rest (c :: cur)

/-- Python `s.split('\n')`: the list of lines between newline
separators (`"".split('\n') == [""]`, and a trailing newline yields a
trailing empty line). -/
def pySplitNl (s : String) : List String :=
  splitNlAux s.data []

/-! ## `validate_dates` (src/travelsmart/utils/helpers.py, lines 56-69)

Dates are embedded as integer day ordinals, so that `end - start` is the
Python `(end_date - start_date).days`.  `today` (Python `date.today()`)
is passed explicitly. -/

/-- Embedding of `helpers.validate_dates`: returns the `(valid, reason)`
pair produced by the chain of checks in the source. -/
def validate_dates (today start_date end_date : Int) : Bool × Option String :=
  if start_date < today then
    (false, some "Start date cannot be in the past")
  else if end_date ≤ start_date then
    (false, some "End date must be after start date")
  else if end_date - start_date > 365 then
    (false, some "Trip duration cannot exceed 365 days")
  else
    (true, Option.none)

/-! ## Month labeling in `get_seasonal_recommendations`
(src/travelsmart/services/recommendation_engine.py, lines 101-147) -/

/-- The twelve month names used by `get_seasonal_recommendations`. -/
def months : List String :=
  ["January", "February", "March", "April", "May", "June",
   "July", "August", "September", "October", "November", "December"]

/-- Embedding of the expression
`months[month - 1] if 1 <= month <= 12 else "Unknown"`.
List indexing is modelled with `getElem?`, whose `Option.none` result
corresponds to a Python `IndexError`; totality of the labeling is then
the statement that this function never returns `Option.none`. -/
def month_label (month : Int) : Option String :=
  if 1 ≤ month ∧ month ≤ 12 then months[(month - 1).toNat]? else some "Unknown"

/-! ## `MCPClient.call_tool` (src/travelsmart/services/mcp_client.py, lines 28-59)

The HTTP exchange performed by `call_tool` is embedded as an explicit
outcome: either an HTTP response with a status code and a body, or a
transport-level `aiohttp.ClientError` carrying a message.  The Python
function either returns the parsed body (here: the body itself) or
raises; a raise is modelled as `Except.error` carrying the exception's
text. -/

/-- Outcome of the underlying `session.post` exchange. -/
inductive HttpOutcome where
  | response (status : Nat) (body : String)
  | transportError (msg : String)

/-- Embedding of `MCPClient.call_tool`: on a 200 response the body is
returned; on any other status the function raises
`Exception(f"MCP server error: {response.status}")`; a transport error
(`aiohttp.ClientError`) is logged and re-raised unchanged. -/
def call_tool (server_name : String) (o : HttpOutcome) : Except String String :=
  match o with
  | .response status body =>
      if status == 200 then Except.ok body
      else Except.error ("MCP server error: " ++ toString status)
  | .transportError m => Except.error m

/-! ## `TravelOrchestrator.plan_trip`
(src/travelsmart/services/travel_orchestrator.py, lines 21-79)

The five remote interactions of one `plan_trip` run (weather, insights,
narrative generation, flight search, hotel search) are embedded as a
record of `Except` outcomes; `Except.error e` models the corresponding
call raising an exception whose `str` is `e`. -/

/-- Embedding of the pydantic `TravelRequest` model
(src/travelsmart/models/travel_models.py, lines 36-46). -/
structure TravelRequest where
  destination : String
  departure_city : String
  start_date : Int
  end_date : Int
  budget : Option Int
  travel_type : String
  party_size : Nat
  preferences : Option (List (String × PyVal))
  special_requirements : Option String

/-- The outcomes of the remote calls made during one `plan_trip` run. -/
structure ServiceOutcomes where
  weather : Except String PyVal
  insights : Except String PyVal
  gpt : Except String String
  flights : Except String (List PyVal)
  hotels : Except String (List PyVal)

/-- A raised exception collapsed to an absent value (`None`), as done for
weather and insights inside `plan_trip` / `get_weather_data` /
`get_travel_insights`. -/
def exceptToOption {α : Type} : Except String α → Option α
  | .ok a => some a
  | .error _ => Option.none

/-- Embedding of `TravelOrchestrator.search_flights`
(travel_orchestrator.py, lines 123-140): any exception from the booking
client is caught and an empty list returned. -/
def search_flights (o : ServiceOutcomes) : List PyVal :=
  match o.flights with
  | .ok fs => fs
  | .error _ => []

/-- Embedding of `TravelOrchestrator.search_hotels`
(travel_orchestrator.py, lines 142-158): any exception from the booking
client is caught and an empty list returned. -/
def search_hotels (o : ServiceOutcomes) : List PyVal :=
  match o.hotels with
  | .ok hs => hs
  | .error _ => []

/-- The dictionary returned by `plan_trip`.  For each key that is present
only in the success dictionary, an outer `Option.none` means the key is
absent from the returned dictionary altogether (the error dictionary
carries only `status`, `message` and `request`); `weather_forecast` and
`local_insights` are doubly optional because the key can be present with
the value `None`. -/
structure PlanResult where
  status : String
  message : Option String
  travel_plan : Option String
  weather_forecast : Option (Option PyVal)
  local_insights : Option (Option PyVal)
  flight_options : Option (List PyVal)
  hotel_options : Option (List PyVal)
  request : TravelRequest

/-- Result of one `plan_trip` run together with how many times
`search_flights` and `search_hotels` were invoked during it. -/
structure PlanOutcome where
  result : PlanResult
  flight_search_calls : Nat
  hotel_search_calls : Nat

/-- Embedding of `TravelOrchestrator.plan_trip`.  Weather and insights are
gathered with `return_exceptions=True` and an exception is replaced by
`None`; the GPT call is the only statement inside the outer `try` that can
raise, and its exception is caught by the outer handler which builds the
error dictionary from `str(e)`; on GPT success, flight and hotel search
are each invoked once (each swallowing its own failures). -/
def plan_trip (req : TravelRequest) (o : ServiceOutcomes) : PlanOutcome :=
  let weather_data := exceptToOption o.weather
  let insights_data := exceptToOption o.insights
  match o.gpt with
  | .error e =>
      { result :=
          { status := "error"
            message := some e
            travel_plan := Option.none
            weather_forecast := Option.none
            local_insights := Option.none
            flight_options := Option.none
            hotel_options := Option.none
            request := req }
        flight_search_calls := 0
        hotel_search_calls := 0 }
  | .ok travel_plan =>
      { result :=
          { status := "success"
            message := Option.none
            travel_plan := some travel_plan
            weather_forecast := some weather_data
            local_insights := some insights_data
            flight_options := some (search_flights o)
            hotel_options := some (search_hotels o)
            request := req }
        flight_search_calls := 1
        hotel_search_calls := 1 }

/-! ## `CacheManager.get` / `CacheManager.set`
(src/travelsmart/utils/cache.py, lines 18-43)

Time (`datetime.now()`) is embedded as an explicit integer instant passed
to each operation; the internal dictionary is a map from keys to entries.
The `asyncio.Lock` serialises the operations, so one `get`/`set` is an
atomic state transformation. -/

/-- One entry of the cache dictionary, as stored by `CacheManager.set`. -/
structure CacheEntry where
  data : PyVal
  expires_at : Int
  created_at : Int

/-- The cache's internal dictionary `self._cache`. -/
def CacheState : Type := String → Option CacheEntry

/-- Embedding of `CacheManager.set`: store the value under the key with
absolute expiry `now + ttl_seconds`. -/
def cache_set (c : CacheState) (key : String) (value : PyVal) (ttl_seconds : Int)
    (now : Int) : CacheState :=
  fun k =>
    if k = key then
      some { data := value, expires_at := now + ttl_seconds, created_at := now }
    else c k

/-- Embedding of `CacheManager.get`: a present, unexpired entry
(`now < expires_at`) yields its data; an expired entry is deleted and the
lookup misses; an absent key misses.  Returns the looked-up value together
with the cache state after the call. -/
def cache_get (c : CacheState) (key : String) (now : Int) :
    Option PyVal × CacheState :=
  match c key with
  | some entry =>
      if now < entry.expires_at then (some entry.data, c)
      else (Option.none, fun k => if k = key then Option.none else c k)
  | Option.none => (Option.none, c)

/-! ## Cache key derivation
(`generate_cache_key` in src/travelsmart/utils/helpers.py, lines 72-76,
and `CacheManager.cache_key_for_weather` in src/travelsmart/utils/cache.py,
lines 73-76)

`generate_cache_key` builds
`key_data = {"args": args, "kwargs": sorted(kwargs.items())}`, serialises
it with `json.dumps(..., sort_keys=True, default=str)` and returns the MD5
hex digest of that string.  Keyword values are embedded as strings
(`default=str` stringifies everything), and the serialise-then-digest
pipeline — a fixed function of the sorted key data — is abstracted as a
parameter `ser`, since the digest of equal key data is equal whatever the
hash is. -/

/-- Python's ordering on `(key, value)` pairs of strings: lexicographic
tuple comparison, as used by `sorted(kwargs.items())`. -/
def kwLe (a b : String × String) : Prop := toLex a ≤ toLex b

instance : DecidableRel kwLe :=
  fun a b => inferInstanceAs (Decidable (toLex a ≤ toLex b))

instance : IsTotal (String × String) kwLe :=
  ⟨fun a b => le_total (toLex a) (toLex b)⟩

instance : IsTrans (String × String) kwLe :=
  ⟨fun _ _ _ h₁ h₂ => le_trans h₁ h₂⟩

instance : IsAntisymm (String × String) kwLe :=
  ⟨fun _ _ h₁ h₂ => toLex.injective (le_antisymm h₁ h₂)⟩

/-- The keyword pairs in canonical order: `sorted(kwargs.items())`. -/
def sortedPairs (kwargs : List (String × String)) : List (String × String) :=
  List.insertionSort kwLe kwargs

/-- The structured `key_data` value built on line 74 of helpers.py. -/
structure KeyData where
  args : List String
  kwargs : List (String × String)
deriving DecidableEq

/-- The `key_data` dictionary for given positional and keyword arguments:
positional arguments in call order, keyword bindings sorted. -/
def keyDataOf (args : List String) (kwargs : List (String × String)) : KeyData :=
  { args := args, kwargs := sortedPairs kwargs }

/-- Embedding of `helpers.generate_cache_key`; `ser` stands for the
`json.dumps` + `hashlib.md5(...).hexdigest()` pipeline applied to the
sorted key data. -/
def generate_cache_key (ser : KeyData → String) (args : List String)
    (kwargs : List (String × String)) : String :=
  ser (keyDataOf args kwargs)

/-- The pre-digest key string `f"weather:{location}:{start_date}:{end_date}"`
built by `CacheManager.cache_key_for_weather` (cache.py, line 75). -/
def weather_key_data (location start_date end_date : String) : String :=
  "weather:" ++ location ++ ":" ++ start_date ++ ":" ++ end_date

/-- Embedding of `CacheManager.cache_key_for_weather`; `h` stands for the
`hashlib.md5(...).hexdigest()` digest step. -/
def cache_key_for_weather (h : String → String)
    (location start_date end_date : String) : String :=
  h (weather_key_data location start_date end_date)

/-! ## `RecommendationEngine._calculate_personalization_score`
(src/travelsmart/services/recommendation_engine.py, lines 263-298)

`preferences` is a dict embedded as an association list (a genuine dict
has pairwise-distinct keys); `travel_history` is `Optional[List[...]]`.
The Python float score only ever takes the integer values produced by the
additive rules, so it is embedded as a natural number. -/

/-- Python `key in dict` on the association-list embedding. -/
def hasKey (prefs : List (String × PyVal)) (key : String) : Bool :=
  prefs.any (fun kv => kv.1 == key)

/-- Dictionary lookup `prefs[key]` on the association-list embedding. -/
def lookupVal : List (String × PyVal) → String → Option PyVal
  | [], _ => Option.none
  | (k, v) :: rest, key => if k = key then some v else lookupVal rest key

/-- The test `"activities" in preferences and preferences["activities"]`
from line 281 of recommendation_engine.py: the key is present and its
value is truthy. -/
def activitiesTruthy (prefs : List (String × PyVal)) : Bool :=
  match lookupVal prefs "activities" with
  | some v => v.truthy
  | Option.none => false

/-- The travel-history list a score computation effectively sees:
`None` and the empty list behave identically in both history checks. -/
def histOf : Option (List PyVal) → List PyVal
  | Option.none => []
  | some h => h

/-- Embedding of
`RecommendationEngine._calculate_personalization_score`. -/
def calculate_personalization_score (preferences : List (String × PyVal))
    (travel_history : Option (List PyVal)) : Nat :=
  let base :=
    if preferences.isEmpty then 0
    else
      30 + (if preferences.length > 5 then 20 else 0)
        + (if activitiesTruthy preferences then 15 else 0)
        + (if hasKey preferences "accommodation" then 10 else 0)
        + (if hasKey preferences "budget" then 10 else 0)
  let hist :=
    match travel_history with
    | Option.none => 0
    | some h => if h.isEmpty then 0 else 15 + (if h.length > 3 then 10 else 0)
  min (base + hist) 100

/-- The preference-derived part of the personalization score (lines
272-288 of recommendation_engine.py), named for reasoning. -/
def scoreBase (preferences : List (String × PyVal)) : Nat :=
  if preferences.isEmpty then 0
  else
    30 + (if preferences.length > 5 then 20 else 0)
      + (if activitiesTruthy preferences then 15 else 0)
      + (if hasKey preferences "accommodation" then 10 else 0)
      + (if hasKey preferences "budget" then 10 else 0)

/-- The history-derived part of the personalization score (lines 291-296
of recommendation_engine.py), named for reasoning. -/
def scoreHist : Option (List PyVal) → Nat
  | Option.none => 0
  | some h => if h.isEmpty then 0 else 15 + (if h.length > 3 then 10 else 0)

/-! ## `RecommendationEngine._parse_similar_destinations_response` and
`RecommendationEngine.get_similar_destinations`
(src/travelsmart/services/recommendation_engine.py, lines 65-99 and
300-326) -/

/-- The destination-indicating keywords of line 316. -/
def dest_keywords : List String := ["destination:", "city:", "country:"]

/-- The check `any(keyword in line.lower() for keyword in [...])`: the (already
stripped) line contains one of the keywords case-insensitively. -/
def isIndicatorLine (line : String) : Bool :=
  dest_keywords.any (fun k => containsSub (pyLower line) k)

/-- One parsed destination record `{"name": ..., "details": [...]}`. -/
structure DestRecord where
  name : String
  details : List String
deriving DecidableEq

/-- The loop of `_parse_similar_destinations_response`: `cur` is
`current_dest` (`Option.none` models the initial falsy `{}`), `acc` the
`destinations` list built so far.  Each raw line is stripped; empty lines
are skipped; an indicator line flushes the current record and starts a
new one; any other line is appended to the current record's details (or
dropped when no record has been started). -/
def parseGo : List String → Option DestRecord → List DestRecord → List DestRecord
  | [], cur, acc =>
    match cur with
    | some d => acc ++ [d]
    | Option.none => acc
  | l :: ls, cur, acc =>
    let line := pyStrip l
    if line == "" then parseGo ls cur acc
    else if isIndicatorLine line then
      match cur with
      | some d => parseGo ls (some { name := line, details := [] }) (acc ++ [d])
      | Option.none => parseGo ls (some { name := line, details := [] }) acc
    else
      match cur with
      | some d => parseGo ls (some { name := d.name, details := d.details ++ [line] }) acc
      | Option.none => parseGo ls Option.none acc

/-- The body of `_parse_similar_destinations_response` on a list of raw lines. -/
def parseLines (ls : List String) : List DestRecord :=
  parseGo ls Option.none []

/-- Embedding of
`RecommendationEngine._parse_similar_destinations_response`:
`response.split('\n')` followed by the line loop. -/
def parse_similar_destinations_response (response : String) : List DestRecord :=
  parseLines (pySplitNl response)

/-- Embedding of `RecommendationEngine.get_similar_destinations`, as a
function of the outcome of the underlying model call: on success the
response text is parsed; an exception is caught and the empty list
returned. -/
def get_similar_destinations (o : Except String String) : List DestRecord :=
  match o with
  | .ok response => parse_similar_destinations_response response
  | .error _ => []

/-- The stripped, non-empty forms of a list of raw lines, in order — the
lines the parsing loop actually acts on. -/
def cleanedList (ls : List String) : List String :=
  (ls.map pyStrip).filter (fun l => !(l == ""))

/-- The stripped, non-empty lines of the response, in order. -/
def cleanedLines (response : String) : List String :=
  cleanedList (pySplitNl response)

/-- Modelled from the spec (refinement target for the parser): "a new
destination record starts whenever a line contains a
destination-indicating keyword; all following non-empty lines are
appended as detail text until the next indicator"; lines before the
first indicator belong to no record.  Stated over the stripped non-empty
lines. -/
def segmentSpec : List String → List DestRecord
  | [] => []
  | l :: ls =>
    if isIndicatorLine l then
      { name := l, details := ls.takeWhile (fun x => !isIndicatorLine x) } ::
        segmentSpec (ls.dropWhile (fun x => !isIndicatorLine x))
    else segmentSpec ls
termination_by ls => ls.length
decreasing_by
  · exact Nat.lt_succ_of_le (List.dropWhile_sublist _).length_le
  · exact Nat.lt_succ_self _

/-- The function `segmentSpec` generalised to a run that starts with an already-open
record, mirroring the parser's `current_dest` argument: the open record
absorbs the detail lines up to the next indicator, after which
segmentation proceeds as from scratch. -/
def segWith : List String → Option DestRecord → List DestRecord
  | ls, Option.none => segmentSpec ls
  | ls, some d =>
    { name := d.name,
      details := d.details ++ ls.takeWhile (fun x => !isIndicatorLine x) } ::
      segmentSpec (ls.dropWhile (fun x => !isIndicatorLine x))

/-! # Theorems -/

/-- C6: `validate_dates` rejects with the "past" reason exactly when the
start date is before today; when the start date is not past and the end
date is not after the start date it rejects with the "ordering" reason
(this also covers `end = start`); whenever the end date is not after the
start date, or the span exceeds 365 days, the pair is rejected; and in
all remaining cases the dates are accepted with no reason. -/
theorem validate_dates_spec (today start_date end_date : Int) :
    ((validate_dates today start_date end_date).2
        = some "Start date cannot be in the past" ↔ start_date < today)
    ∧ (¬ start_date < today → end_date ≤ start_date →
        validate_dates today start_date end_date
          = (false, some "End date must be after start date"))
    ∧ (end_date ≤ start_date → (validate_dates today start_date end_date).1 = false)
    ∧ (end_date - start_date > 365 → (validate_dates today start_date end_date).1 = false)
    ∧ (¬ start_date < today → start_date < end_date → end_date - start_date ≤ 365 →
        validate_dates today start_date end_date = (true, Option.none)) := by
  unfold validate_dates
  split_ifs with h1 h2 h3
  · exact ⟨⟨fun _ => h1, fun _ => rfl⟩,
      fun ha _ => absurd h1 ha,
      fun _ => rfl,
      fun _ => rfl,
      fun ha _ _ => absurd h1 ha⟩
  · exact ⟨⟨fun h => absurd (Option.some.inj h) (by decide), fun h => absurd h h1⟩,
      fun _ _ => rfl,
      fun _ => rfl,
      fun _ => rfl,
      fun _ hb _ => absurd h2 (by omega)⟩
  · exact ⟨⟨fun h => absurd (Option.some.inj h) (by decide), fun h => absurd h h1⟩,
      fun _ hb => absurd hb h2,
      fun hb => absurd hb h2,
      fun _ => rfl,
      fun _ _ hc => absurd h3 (by omega)⟩
  · exact ⟨⟨fun h => absurd h (by decide), fun h => absurd h h1⟩,
      fun _ hb => absurd hb h2,
      fun hb => absurd hb h2,
      fun hb => absurd hb h3,
      fun _ _ _ => rfl⟩

/-- C6 witness: a concrete accepted pair and a concrete "past" rejection. -/
theorem validate_dates_spec_witness :
    validate_dates 0 1 3 = (true, Option.none)
    ∧ (validate_dates 0 (-1) 5).2 = some "Start date cannot be in the past" :=
  ⟨(validate_dates_spec 0 1 3).2.2.2.2 (by omega) (by omega) (by omega),
   ((validate_dates_spec 0 (-1) 5).1).mpr (by omega)⟩

/-- C9: the month labeling of `get_seasonal_recommendations` is total —
for every integer month it produces a label (never an out-of-bounds
index), the label for any month outside 1..12 is "Unknown", and for
months 1..12 it is the corresponding English month name. -/
theorem month_label_spec :
    (∀ m : Int, (month_label m).isSome = true)
    ∧ (∀ m : Int, ¬(1 ≤ m ∧ m ≤ 12) → month_label m = some "Unknown")
    ∧ month_label 1 = some "January" ∧ month_label 2 = some "February"
    ∧ month_label 3 = some "March" ∧ month_label 4 = some "April"
    ∧ month_label 5 = some "May" ∧ month_label 6 = some "June"
    ∧ month_label 7 = some "July" ∧ month_label 8 = some "August"
    ∧ month_label 9 = some "September" ∧ month_label 10 = some "October"
    ∧ month_label 11 = some "November" ∧ month_label 12 = some "December" := by
  refine ⟨fun m => ?_, fun m hm => ?_, by decide, by decide, by decide, by decide,
    by decide, by decide, by decide, by decide, by decide, by decide, by decide, by decide⟩
  · by_cases h : 1 ≤ m ∧ m ≤ 12
    · have hlen : (m - 1).toNat < months.length := by
        have : months.length = 12 := rfl
        omega
      simp only [month_label, if_pos h]
      rw [List.getElem?_eq_getElem hlen]
      rfl
    · simp [month_label, h]
  · simp [month_label, hm]

/-- C9 witness: out-of-range months map to the "Unknown" label. -/
theorem month_label_spec_witness :
    month_label 0 = some "Unknown" ∧ month_label 13 = some "Unknown" :=
  ⟨month_label_spec.2.1 0 (by omega), month_label_spec.2.1 13 (by omega)⟩

/-- C7: after `set k v ttl` at time `now`, a `get k` strictly before the
expiry instant `now + ttl` returns `v`; a `get k` at or after the expiry
instant misses, deletes the entry, and every later `get k` on the
resulting state misses as well. -/
theorem cache_spec (c : CacheState) (key : String) (value : PyVal)
    (ttl now t : Int) (httl : 0 < ttl) :
    (t < now + ttl →
      (cache_get (cache_set c key value ttl now) key t).1 = some value)
    ∧ (now + ttl ≤ t →
        (cache_get (cache_set c key value ttl now) key t).1 = Option.none
        ∧ (cache_get (cache_set c key value ttl now) key t).2 key = Option.none
        ∧ ∀ t' : Int,
            (cache_get ((cache_get (cache_set c key value ttl now) key t).2) key t').1
              = Option.none) := by
  constructor
  · intro ht
    simp [cache_get, cache_set, ht]
  · intro ht
    have hnot : ¬ t < now + ttl := by omega
    refine ⟨?_, ?_, ?_⟩
    · simp [cache_get, cache_set, hnot]
    · simp [cache_get, cache_set, hnot]
    · intro t'
      simp [cache_get, cache_set, hnot]

/-- C7 witness: with `ttl = 10` set at time 0, a get at time 5 hits and a
get at time 10 misses. -/
theorem cache_spec_witness :
    (cache_get (cache_set (fun _ => Option.none) "k" (PyVal.str "v") 10 0) "k" 5).1
      = some (PyVal.str "v")
    ∧ (cache_get (cache_set (fun _ => Option.none) "k" (PyVal.str "v") 10 0) "k" 10).1
      = Option.none :=
  ⟨(cache_spec (fun _ => Option.none) "k" (PyVal.str "v") 10 0 5 (by omega)).1 (by omega),
   ((cache_spec (fun _ => Option.none) "k" (PyVal.str "v") 10 0 10 (by omega)).2
      (by omega)).1⟩

/-- C3 counterexample: on a non-200 response, `call_tool` does not return
a normalized failure value — it raises `Exception("MCP server error:
500")` (modelled as `Except.error`), so "never raises to its caller" is
false at this input. -/
theorem call_tool_counterexample :
    call_tool "weather" (HttpOutcome.response 500 "boom")
      = Except.error ("MCP server error: " ++ toString 500)
    ∧ (call_tool "weather" (HttpOutcome.response 500 "boom")).isOk = false :=
  ⟨rfl, rfl⟩

/-- C3 amended: `call_tool` raises on every non-success outcome rather
than returning a failure value: a non-200 status raises an exception
whose message names the status, a transport error is re-raised
unchanged, and only a 200 response returns normally (with its payload);
the conversion of these exceptions into absent values happens one level
up, in the orchestrator's per-call wrappers. -/
theorem call_tool_spec :
    (∀ (name body : String) (status : Nat), status ≠ 200 →
        call_tool name (HttpOutcome.response status body)
          = Except.error ("MCP server error: " ++ toString status))
    ∧ (∀ name m : String,
        call_tool name (HttpOutcome.transportError m) = Except.error m)
    ∧ (∀ name body : String,
        call_tool name (HttpOutcome.response 200 body) = Except.ok body)
    ∧ (∀ e : String, exceptToOption (Except.error e : Except String PyVal)
        = Option.none) := by
  refine ⟨fun name body status h => ?_, fun name m => rfl, fun name body => rfl,
    fun e => rfl⟩
  simp [call_tool, h]

/-- C3 witness: a 404 raises with the status in the message; a transport
error is re-raised with its own message. -/
theorem call_tool_spec_witness :
    call_tool "booking" (HttpOutcome.response 404 "nope")
      = Except.error ("MCP server error: " ++ toString 404)
    ∧ call_tool "weather" (HttpOutcome.transportError "timeout")
      = Except.error "timeout" :=
  ⟨call_tool_spec.1 "booking" "nope" 404 (by decide),
   call_tool_spec.2.1 "weather" "timeout"⟩

/-- C1: whenever the narrative-generation call succeeds, `plan_trip`
returns status "success" carrying the narrative (and no error message),
regardless of how the other four calls fare: the weather and insights
fields are always present (holding `None` exactly when the corresponding
call failed), and a failed flight or hotel search yields an empty list —
no failure of those four escapes `plan_trip` or changes its status. -/
theorem plan_trip_success_spec (req : TravelRequest) (o : ServiceOutcomes)
    (p : String) (hgpt : o.gpt = Except.ok p) :
    (plan_trip req o).result.status = "success"
    ∧ (plan_trip req o).result.travel_plan = some p
    ∧ (plan_trip req o).result.message = Option.none
    ∧ (plan_trip req o).result.weather_forecast = some (exceptToOption o.weather)
    ∧ (plan_trip req o).result.local_insights = some (exceptToOption o.insights)
    ∧ (∀ e, o.weather = Except.error e →
        (plan_trip req o).result.weather_forecast = some Option.none)
    ∧ (∀ e, o.insights = Except.error e →
        (plan_trip req o).result.local_insights = some Option.none)
    ∧ (∀ e, o.flights = Except.error e →
        (plan_trip req o).result.flight_options = some [])
    ∧ (∀ e, o.hotels = Except.error e →
        (plan_trip req o).result.hotel_options = some []) := by
  unfold plan_trip
  rw [hgpt]
  exact ⟨rfl, rfl, rfl, rfl, rfl,
    fun e he => by simp [exceptToOption, he],
    fun e he => by simp [exceptToOption, he],
    fun e he => by simp [search_flights, he],
    fun e he => by simp [search_hotels, he]⟩

/-- C1 witness: with the narrative succeeding and all four other calls
failing, `plan_trip` still succeeds, with `None` weather/insights and
empty flight/hotel lists. -/
theorem plan_trip_success_spec_witness :
    (plan_trip
        { destination := "Paris", departure_city := "New York", start_date := 0,
          end_date := 6, budget := some 3000, travel_type := "leisure",
          party_size := 2, preferences := Option.none,
          special_requirements := Option.none }
        { weather := Except.error "w", insights := Except.error "i",
          gpt := Except.ok "plan", flights := Except.error "f",
          hotels := Except.error "h" }).result.status = "success"
    ∧ (plan_trip
        { destination := "Paris", departure_city := "New York", start_date := 0,
          end_date := 6, budget := some 3000, travel_type := "leisure",
          party_size := 2, preferences := Option.none,
          special_requirements := Option.none }
        { weather := Except.error "w", insights := Except.error "i",
          gpt := Except.ok "plan", flights := Except.error "f",
          hotels := Except.error "h" }).result.weather_forecast = some Option.none
    ∧ (plan_trip
        { destination := "Paris", departure_city := "New York", start_date := 0,
          end_date := 6, budget := some 3000, travel_type := "leisure",
          party_size := 2, preferences := Option.none,
          special_requirements := Option.none }
        { weather := Except.error "w", insights := Except.error "i",
          gpt := Except.ok "plan", flights := Except.error "f",
          hotels := Except.error "h" }).result.flight_options = some [] :=
  ⟨(plan_trip_success_spec _ _ "plan" rfl).1,
   (plan_trip_success_spec _ _ "plan" rfl).2.2.2.2.2.1 "w" rfl,
   (plan_trip_success_spec _ _ "plan" rfl).2.2.2.2.2.2.2.1 "f" rfl⟩

/-- C2 counterexample: when the narrative generation raises an exception
whose text is empty (`Exception("")`), `plan_trip` returns status
"error" with `message = str(e) = ""` — an empty message — so the claim's
"message field is non-empty" fails at this input. -/
theorem plan_trip_error_counterexample :
    (plan_trip
        { destination := "Paris", departure_city := "New York", start_date := 0,
          end_date := 6, budget := Option.none, travel_type := "leisure",
          party_size := 2, preferences := Option.none,
          special_requirements := Option.none }
        { weather := Except.ok (PyVal.str "sunny"),
          insights := Except.ok (PyVal.str "nice"),
          gpt := Except.error "", flights := Except.ok [],
          hotels := Except.ok [] }).result.status = "error"
    ∧ (plan_trip
        { destination := "Paris", departure_city := "New York", start_date := 0,
          end_date := 6, budget := Option.none, travel_type := "leisure",
          party_size := 2, preferences := Option.none,
          special_requirements := Option.none }
        { weather := Except.ok (PyVal.str "sunny"),
          insights := Except.ok (PyVal.str "nice"),
          gpt := Except.error "", flights := Except.ok [],
          hotels := Except.ok [] }).result.message = some "" :=
  ⟨rfl, rfl⟩

/-- C2 amended: when the narrative-generation call raises, `plan_trip`
returns status "error" whose message is exactly the exception's text
(hence non-empty whenever that text is non-empty), the flight and hotel
searches are never invoked (zero calls each), and the error result
carries no plan fields — no travel plan, weather, insights, flight or
hotel entries — beyond the echoed request. -/
theorem plan_trip_error_spec (req : TravelRequest) (o : ServiceOutcomes)
    (e : String) (hgpt : o.gpt = Except.error e) :
    (plan_trip req o).result.status = "error"
    ∧ (plan_trip req o).result.message = some e
    ∧ (e ≠ "" → (plan_trip req o).result.message ≠ some "")
    ∧ (plan_trip req o).flight_search_calls = 0
    ∧ (plan_trip req o).hotel_search_calls = 0
    ∧ (plan_trip req o).result.travel_plan = Option.none
    ∧ (plan_trip req o).result.weather_forecast = Option.none
    ∧ (plan_trip req o).result.local_insights = Option.none
    ∧ (plan_trip req o).result.flight_options = Option.none
    ∧ (plan_trip req o).result.hotel_options = Option.none
    ∧ (plan_trip req o).result.request = req := by
  unfold plan_trip
  rw [hgpt]
  exact ⟨rfl, rfl,
    fun hne hc => hne (Option.some.inj hc),
    rfl, rfl, rfl, rfl, rfl, rfl, rfl, rfl⟩

/-- C2 witness: a failed narrative call with text "API Error" yields an
error result echoing that message, with zero flight/hotel searches. -/
theorem plan_trip_error_spec_witness :
    (plan_trip
        { destination := "Paris", departure_city := "New York", start_date := 0,
          end_date := 6, budget := Option.none, travel_type := "leisure",
          party_size := 2, preferences := Option.none,
          special_requirements := Option.none }
        { weather := Except.ok (PyVal.str "sunny"),
          insights := Except.error "i",
          gpt := Except.error "API Error", flights := Except.ok [],
          hotels := Except.ok [] }).result.message = some "API Error"
    ∧ (plan_trip
        { destination := "Paris", departure_city := "New York", start_date := 0,
          end_date := 6, budget := Option.none, travel_type := "leisure",
          party_size := 2, preferences := Option.none,
          special_requirements := Option.none }
        { weather := Except.ok (PyVal.str "sunny"),
          insights := Except.error "i",
          gpt := Except.error "API Error", flights := Except.ok [],
          hotels := Except.ok [] }).result.message ≠ some ""
    ∧ (plan_trip
        { destination := "Paris", departure_city := "New York", start_date := 0,
          end_date := 6, budget := Option.none, travel_type := "leisure",
          party_size := 2, preferences := Option.none,
          special_requirements := Option.none }
        { weather := Except.ok (PyVal.str "sunny"),
          insights := Except.error "i",
          gpt := Except.error "API Error", flights := Except.ok [],
          hotels := Except.ok [] }).flight_search_calls = 0 :=
  ⟨(plan_trip_error_spec _ _ "API Error" rfl).2.1,
   (plan_trip_error_spec _ _ "API Error" rfl).2.2.1 (by decide),
   (plan_trip_error_spec _ _ "API Error" rfl).2.2.2.1⟩

/-- C4 counterexample: `cache_key_for_weather` joins its raw arguments
with ":" and no escaping, so the distinct argument sets
`("a:b", "c", "d")` and `("a", "b:c", "d")` produce the same pre-digest
key string — and therefore the same MD5 key, whatever the digest
function — refuting "for argument sets that differ in value, the keys
differ". -/
theorem cache_key_counterexample :
    weather_key_data "a:b" "c" "d" = weather_key_data "a" "b:c" "d"
    ∧ ("a:b", "c", "d") ≠ (("a", "b:c", "d") : String × String × String) :=
  ⟨rfl, by decide⟩

/-- C4 amended: `generate_cache_key` is deterministic and
order-independent in its keyword bindings — any two keyword lists that
are permutations of each other yield the same key for every
serialise-and-digest function — and keyword sets that are not
permutations of each other yield distinct sorted key data (hence
distinct keys whenever the serialise-and-digest pipeline does not
collide); the unescaped `cache_key_for_weather` derivation, by contrast,
can collide on distinct arguments containing ":". -/
theorem cache_key_spec (ser : KeyData → String) (args : List String)
    (k₁ k₂ k₃ : List (String × String))
    (hperm : k₁.Perm k₂) (hne : ¬ k₁.Perm k₃) :
    generate_cache_key ser args k₁ = generate_cache_key ser args k₂
    ∧ keyDataOf args k₁ ≠ keyDataOf args k₃ := by
  have hsort : sortedPairs k₁ = sortedPairs k₂ :=
    List.eq_of_perm_of_sorted
      ((List.perm_insertionSort kwLe k₁).trans
        (hperm.trans (List.perm_insertionSort kwLe k₂).symm))
      (List.sorted_insertionSort kwLe k₁)
      (List.sorted_insertionSort kwLe k₂)
  constructor
  · unfold generate_cache_key keyDataOf
    rw [hsort]
  · intro hda
    have hkw : sortedPairs k₁ = sortedPairs k₃ := congrArg KeyData.kwargs hda
    have h1 : (sortedPairs k₁).Perm k₁ := List.perm_insertionSort kwLe k₁
    have h3 : (sortedPairs k₃).Perm k₃ := List.perm_insertionSort kwLe k₃
    rw [← hkw] at h3
    exact hne (h1.symm.trans h3)

/-- C4 witness: two orderings of the same keyword bindings give the same
key; a keyword set with different contents gives different key data. -/
theorem cache_key_spec_witness :
    generate_cache_key (fun _ => "") [] [("a", "1"), ("b", "2")]
      = generate_cache_key (fun _ => "") [] [("b", "2"), ("a", "1")]
    ∧ keyDataOf [] [("a", "1"), ("b", "2")] ≠ keyDataOf [] [] :=
  cache_key_spec (fun _ => "") [] [("a", "1"), ("b", "2")]
    [("b", "2"), ("a", "1")] []
    (List.Perm.swap ("b", "2") ("a", "1") [])
    (fun h => by simpa using h.length_eq)

/-- The personalization score decomposes into its preference- and
history-derived parts, capped at 100. -/
theorem score_eq (p : List (String × PyVal)) (h : Option (List PyVal)) :
    calculate_personalization_score p h = min (scoreBase p + scoreHist h) 100 := by
  cases h <;> rfl

/-- A successful association-list lookup exhibits a member pair. -/
theorem lookupVal_mem {l : List (String × PyVal)} {k : String} {v : PyVal}
    (h : lookupVal l k = some v) : (k, v) ∈ l := by
  induction l with
  | nil => simp [lookupVal] at h
  | cons p rest ih =>
    obtain ⟨k', v'⟩ := p
    by_cases hk : k' = k
    · subst hk
      simp [lookupVal] at h
      subst h
      exact List.mem_cons_self _ _
    · simp [lookupVal, hk] at h
      exact List.mem_cons_of_mem _ (ih h)

/-- In an association list with pairwise-distinct keys, lookup finds the
value of any member pair. -/
theorem lookupVal_of_mem_nodup {l : List (String × PyVal)} {k : String} {v : PyVal}
    (hnd : (l.map Prod.fst).Nodup) (hm : (k, v) ∈ l) : lookupVal l k = some v := by
  induction l with
  | nil => cases hm
  | cons p rest ih =>
    obtain ⟨k', v'⟩ := p
    rw [List.map_cons, List.nodup_cons] at hnd
    obtain ⟨hk'notin, hndrest⟩ := hnd
    rcases List.mem_cons.mp hm with heq | htail
    · rw [Prod.mk.injEq] at heq
      obtain ⟨rfl, rfl⟩ := heq
      simp [lookupVal]
    · have hkk : k' ≠ k := by
        intro h
        subst h
        exact hk'notin (List.mem_map.mpr ⟨(k', v), htail, rfl⟩)
      simp only [lookupVal, if_neg hkk]
      exact ih hndrest htail

/-- A truthy "activities" binding survives passing to a super-dict. -/
theorem activitiesTruthy_mono {p₁ p₂ : List (String × PyVal)}
    (hsub : p₁.Sublist p₂) (hnd : (p₂.map Prod.fst).Nodup)
    (h : activitiesTruthy p₁ = true) : activitiesTruthy p₂ = true := by
  unfold activitiesTruthy at h ⊢
  cases hl : lookupVal p₁ "activities" with
  | none => rw [hl] at h; cases h
  | some v =>
    rw [hl] at h
    have hmem : ("activities", v) ∈ p₁ := lookupVal_mem hl
    rw [lookupVal_of_mem_nodup hnd (hsub.subset hmem)]
    exact h

/-- Key membership survives passing to a super-dict. -/
theorem hasKey_mono {p₁ p₂ : List (String × PyVal)} {k : String}
    (hsub : p₁.Sublist p₂) (h : hasKey p₁ k = true) : hasKey p₂ k = true := by
  unfold hasKey at h ⊢
  rw [List.any_eq_true] at h ⊢
  obtain ⟨x, hx, hxk⟩ := h
  exact ⟨x, hsub.subset hx, hxk⟩

/-- A zero-default conditional bonus is monotone in its condition. -/
theorem ite_le_ite {c₁ c₂ : Prop} [Decidable c₁] [Decidable c₂]
    (h : c₁ → c₂) (a : Nat) :
    (if c₁ then a else 0) ≤ (if c₂ then a else 0) := by
  by_cases h₁ : c₁
  · rw [if_pos h₁, if_pos (h h₁)]
  · rw [if_neg h₁]
    exact Nat.zero_le _

/-- The preference-derived score part is monotone under adding bindings
(for genuine dicts, i.e. with pairwise-distinct keys). -/
theorem scoreBase_mono {p₁ p₂ : List (String × PyVal)}
    (hsub : p₁.Sublist p₂) (hnd : (p₂.map Prod.fst).Nodup) :
    scoreBase p₁ ≤ scoreBase p₂ := by
  unfold scoreBase
  by_cases hp1 : p₁.isEmpty = true
  · rw [if_pos hp1]
    exact Nat.zero_le _
  · have hp1' : p₁.isEmpty = false := by simpa using hp1
    have hp2 : p₂.isEmpty = false := by
      cases p₂ with
      | nil =>
        have hnil : p₁ = [] := List.sublist_nil.mp hsub
        simp [hnil] at hp1'
      | cons a l => rfl
    rw [hp1', hp2]
    simp only [Bool.false_eq_true, if_false]
    refine Nat.add_le_add (Nat.add_le_add (Nat.add_le_add (Nat.add_le_add le_rfl ?_) ?_) ?_) ?_
    · exact ite_le_ite (fun h => Nat.lt_of_lt_of_le h hsub.length_le) 20
    · exact ite_le_ite (fun h => activitiesTruthy_mono hsub hnd h) 15
    · exact ite_le_ite (fun h => hasKey_mono hsub h) 10
    · exact ite_le_ite (fun h => hasKey_mono hsub h) 10

/-- The history-derived score part is monotone under adding entries. -/
theorem scoreHist_mono {h₁ h₂ : Option (List PyVal)}
    (hh : (histOf h₁).Sublist (histOf h₂)) : scoreHist h₁ ≤ scoreHist h₂ := by
  have key : ∀ l₁ l₂ : List PyVal, l₁.Sublist l₂ → scoreHist (some l₁) ≤ scoreHist (some l₂) := by
    intro l₁ l₂ hsub
    simp only [scoreHist]
    by_cases he : l₁.isEmpty = true
    · rw [if_pos he]
      exact Nat.zero_le _
    · have he1 : l₁.isEmpty = false := by simpa using he
      have he2 : l₂.isEmpty = false := by
        cases l₂ with
        | nil =>
          have hnil : l₁ = [] := List.sublist_nil.mp hsub
          simp [hnil] at he1
        | cons a l => rfl
      rw [he1, he2]
      simp only [Bool.false_eq_true, if_false]
      exact Nat.add_le_add le_rfl
        (ite_le_ite (fun h => Nat.lt_of_lt_of_le h hsub.length_le) 10)
  cases h₁ with
  | none => exact Nat.zero_le _
  | some l₁ =>
    cases h₂ with
    | none =>
      have hnil : l₁ = [] := List.sublist_nil.mp hh
      simp [scoreHist, hnil]
    | some l₂ => exact key l₁ l₂ hh

/-- C5 counterexample: the preference dict `{"activities": []}` has the
"activities" category present, yet `_calculate_personalization_score`
gives it 30 — not the 30 + 15 = 45 that "+15 for the presence of an
'activities' preference category" predicts — because the code also
requires the activities value to be truthy (non-empty). -/
theorem personalization_score_counterexample :
    calculate_personalization_score [("activities", PyVal.list [])] Option.none = 30
    ∧ (30 : Nat) ≠ 30 + 15 :=
  ⟨by decide, by decide⟩

/-- C5 amended: the personalization score is `min` of 100 and the sum of
+30 for a non-empty preference map, +20 for more than 5 preference
entries, +15 for an "activities" entry with a truthy (non-empty) value,
+10 each for the presence of "accommodation" and "budget", +15 for a
non-empty history, +10 more for more than 3 history entries.  Hence:
empty preferences with no history score 0; any profile with 6+
preference keys including a truthy "activities" and a "budget", plus a
4+-entry history, scores exactly 100; the score never exceeds 100; and
it is monotone under adding preference bindings (for dicts, whose keys
are pairwise distinct) and history entries. -/
theorem personalization_score_spec :
    calculate_personalization_score [] Option.none = 0
    ∧ (∀ p h, calculate_personalization_score p h ≤ 100)
    ∧ (∀ (p : List (String × PyVal)) (hist : List PyVal),
        p.isEmpty = false → p.length > 5 → activitiesTruthy p = true →
        hasKey p "budget" = true → hist.length > 3 →
        calculate_personalization_score p (some hist) = 100)
    ∧ (∀ (p₁ p₂ : List (String × PyVal)) (h₁ h₂ : Option (List PyVal)),
        p₁.Sublist p₂ → (p₂.map Prod.fst).Nodup →
        (histOf h₁).Sublist (histOf h₂) →
        calculate_personalization_score p₁ h₁
          ≤ calculate_personalization_score p₂ h₂) := by
  refine ⟨by decide, fun p h => ?_, fun p hist hp hlen hact hbud hhlen => ?_,
    fun p₁ p₂ h₁ h₂ hsub hnd hh => ?_⟩
  · rw [score_eq]
    exact min_le_right _ _
  · rw [score_eq]
    have hne : hist.isEmpty = false := by
      cases hist with
      | nil => simp at hhlen
      | cons a l => rfl
    rw [scoreBase, scoreHist]
    rw [hp, hne]
    simp only [Bool.false_eq_true, if_false, if_pos hlen, if_pos hhlen, hact, if_true, hbud]
    omega
  · rw [score_eq, score_eq]
    exact min_le_min (Nat.add_le_add (scoreBase_mono hsub hnd) (scoreHist_mono hh)) le_rfl

/-- C5 witness: a 6-key profile with truthy activities, budget and a
4-entry history scores 100, and dominates the empty profile. -/
theorem personalization_score_spec_witness :
    calculate_personalization_score
      [("activities", PyVal.list [PyVal.str "x"]), ("budget", PyVal.int 3),
       ("a", PyVal.int 1), ("b", PyVal.int 1), ("c", PyVal.int 1), ("d", PyVal.int 1)]
      (some [PyVal.none, PyVal.none, PyVal.none, PyVal.none]) = 100
    ∧ calculate_personalization_score [] Option.none
      ≤ calculate_personalization_score
          [("activities", PyVal.list [PyVal.str "x"]), ("budget", PyVal.int 3),
           ("a", PyVal.int 1), ("b", PyVal.int 1), ("c", PyVal.int 1), ("d", PyVal.int 1)]
          (some [PyVal.none, PyVal.none, PyVal.none, PyVal.none]) :=
  ⟨personalization_score_spec.2.2.1
      [("activities", PyVal.list [PyVal.str "x"]), ("budget", PyVal.int 3),
       ("a", PyVal.int 1), ("b", PyVal.int 1), ("c", PyVal.int 1), ("d", PyVal.int 1)]
      [PyVal.none, PyVal.none, PyVal.none, PyVal.none]
      (by decide) (by decide) (by decide) (by decide) (by decide),
   personalization_score_spec.2.2.2
      [] _ Option.none (some [PyVal.none, PyVal.none, PyVal.none, PyVal.none])
      (List.nil_sublist _) (by decide) (List.nil_sublist _)⟩

/-- The parser's `destinations` accumulator only ever receives appends:
running with accumulator `acc` prefixes `acc` to the run from scratch. -/
theorem parseGo_acc (ls : List String) (cur : Option DestRecord)
    (acc : List DestRecord) : parseGo ls cur acc = acc ++ parseGo ls cur [] := by
  induction ls generalizing cur acc with
  | nil => cases cur <;> simp [parseGo]
  | cons l ls ih =>
    cases cur with
    | none =>
      simp only [parseGo]
      by_cases h1 : (pyStrip l == "") = true
      · rw [if_pos h1, if_pos h1]
        exact ih _ acc
      · rw [if_neg h1, if_neg h1]
        by_cases h2 : isIndicatorLine (pyStrip l) = true
        · rw [if_pos h2, if_pos h2]
          exact ih _ acc
        · rw [if_neg h2, if_neg h2]
          exact ih _ acc
    | some d =>
      simp only [parseGo]
      by_cases h1 : (pyStrip l == "") = true
      · rw [if_pos h1, if_pos h1]
        exact ih _ acc
      · rw [if_neg h1, if_neg h1]
        by_cases h2 : isIndicatorLine (pyStrip l) = true
        · rw [if_pos h2, if_pos h2]
          rw [ih _ (acc ++ [d]), ih _ ([] ++ [d])]
          simp
        · rw [if_neg h2, if_neg h2]
          exact ih _ acc

/-- The parsing loop computes exactly the spec-side segmentation of the
stripped non-empty lines, for any starting `current_dest`. -/
theorem parseGo_eq (ls : List String) (cur : Option DestRecord) :
    parseGo ls cur [] = segWith (cleanedList ls) cur := by
  induction ls generalizing cur with
  | nil =>
    cases cur with
    | none => simp [parseGo, cleanedList, segWith, segmentSpec]
    | some d => simp [parseGo, cleanedList, segWith, segmentSpec]
  | cons l ls ih =>
    by_cases h1 : (pyStrip l == "") = true
    · have hcl : cleanedList (l :: ls) = cleanedList ls := by
        simp [cleanedList, List.filter_cons, h1]
      rw [hcl, ← ih cur]
      simp [parseGo, h1]
    · have hcl : cleanedList (l :: ls) = pyStrip l :: cleanedList ls := by
        simp [cleanedList, List.filter_cons, h1]
      rw [hcl]
      by_cases h2 : isIndicatorLine (pyStrip l) = true
      · cases cur with
        | none =>
          rw [show parseGo (l :: ls) Option.none []
                = parseGo ls (some { name := pyStrip l, details := [] }) [] from by
              simp [parseGo, h1, h2]]
          rw [ih]
          simp [segWith, segmentSpec, h2]
        | some d =>
          rw [show parseGo (l :: ls) (some d) []
                = parseGo ls (some { name := pyStrip l, details := [] }) ([] ++ [d]) from by
              simp [parseGo, h1, h2]]
          rw [parseGo_acc, ih]
          simp [segWith, segmentSpec, h2, List.takeWhile_cons, List.dropWhile_cons]
      · cases cur with
        | none =>
          rw [show parseGo (l :: ls) Option.none [] = parseGo ls Option.none [] from by
              simp [parseGo, h1, h2]]
          rw [ih]
          simp [segWith, segmentSpec, h2]
        | some d =>
          rw [show parseGo (l :: ls) (some d) []
                = parseGo ls (some { name := d.name, details := d.details ++ [pyStrip l] }) []
              from by simp [parseGo, h1, h2]]
          rw [ih]
          simp [segWith, List.takeWhile_cons, List.dropWhile_cons, h2]

/-- The parser equals the spec-side segmentation of the cleaned lines. -/
theorem parse_eq_segment (r : String) :
    parse_similar_destinations_response r = segmentSpec (cleanedLines r) := by
  unfold parse_similar_destinations_response parseLines cleanedLines
  rw [parseGo_eq]
  rfl

/-- Every record produced by the spec-side segmentation is named by an
indicator line. -/
theorem segmentSpec_names (ls : List String) :
    ∀ d ∈ segmentSpec ls, isIndicatorLine d.name = true := by
  induction ls using segmentSpec.induct with
  | case1 => simp [segmentSpec]
  | case2 l ls h ih =>
    intro d hd
    rw [segmentSpec, if_pos h] at hd
    rcases List.mem_cons.mp hd with rfl | hd'
    · exact h
    · exact ih d hd'
  | case3 l ls h ih =>
    intro d hd
    rw [segmentSpec, if_neg h] at hd
    exact ih d hd

/-- Lines carrying no indicator keyword (before any record is open) are
skipped without effect on the parse. -/
theorem parseGo_skip : ∀ (junk rest : List String) (acc : List DestRecord),
    (∀ l ∈ junk, isIndicatorLine (pyStrip l) = false) →
    parseGo (junk ++ rest) Option.none acc = parseGo rest Option.none acc := by
  intro junk
  induction junk with
  | nil => intro rest acc h; rfl
  | cons l junk ih =>
    intro rest acc h
    have hl : isIndicatorLine (pyStrip l) = false := h l (List.mem_cons_self _ _)
    have hrest : ∀ x ∈ junk, isIndicatorLine (pyStrip x) = false :=
      fun x hx => h x (List.mem_cons_of_mem _ hx)
    by_cases h1 : (pyStrip l == "") = true
    · rw [List.cons_append, parseGo, if_pos h1]
      exact ih rest acc hrest
    · rw [List.cons_append, parseGo, if_neg h1, if_neg (by simp [hl])]
      exact ih rest acc hrest

/-- C8: the similar-destinations parser implements the stated
segmentation algorithm — over the stripped non-empty lines of the
response, a new record starts exactly at each line containing a
destination-indicating keyword (case-insensitively), collecting every
following non-empty line as detail text until the next indicator — and a
failed model call yields the empty list instead of an error. -/
theorem similar_destinations_spec :
    (∀ e : String, get_similar_destinations (Except.error e) = [])
    ∧ (∀ r : String,
        get_similar_destinations (Except.ok r) = segmentSpec (cleanedLines r)) :=
  ⟨fun e => rfl, fun r => parse_eq_segment r⟩

/-- C10: every parsed record is named by a line containing an indicator
keyword; lines before the first indicator are discarded and appear in no
record; and a response with no indicator line parses to the empty
list. -/
theorem parser_implicit_spec :
    (∀ (r : String) (d : DestRecord),
        d ∈ parse_similar_destinations_response r → isIndicatorLine d.name = true)
    ∧ (∀ junk rest : List String,
        (∀ l ∈ junk, isIndicatorLine (pyStrip l) = false) →
        parseLines (junk ++ rest) = parseLines rest)
    ∧ (∀ r : String,
        (∀ l ∈ pySplitNl r, isIndicatorLine (pyStrip l) = false) →
        parse_similar_destinations_response r = []) := by
  refine ⟨fun r d hd => ?_, fun junk rest h => parseGo_skip junk rest [] h,
    fun r h => ?_⟩
  · rw [parse_eq_segment] at hd
    exact segmentSpec_names _ d hd
  · unfold parse_similar_destinations_response parseLines
    have h2 := parseGo_skip (pySplitNl r) [] [] h
    rw [List.append_nil] at h2
    exact h2.trans rfl

/-- C10 witness: a record name carries its indicator; a non-indicator
lead-in line does not change the parse; an indicator-free response
parses to the empty list. -/
theorem parser_implicit_spec_witness :
    isIndicatorLine "City: Oslo" = true
    ∧ parseLines (["intro text"] ++ ["Destination: Rome"])
        = parseLines ["Destination: Rome"]
    ∧ parse_similar_destinations_response "hello\nworld" = [] :=
  ⟨parser_implicit_spec.1 "City: Oslo" { name := "City: Oslo", details := [] }
      (by decide),
   parser_implicit_spec.2.1 ["intro text"] ["Destination: Rome"] (by decide),
   parser_implicit_spec.2.2 "hello\nworld" (by decide)⟩

end TravelSmart
